import Mathlib

/-!
Shallow embedding of the calculation engine of the Spiral Digital Twin
application (src/app.py): the recovery/grade/revenue engine (ultra_engine,
lines 73-96), the operating-cost helper (total_opex, lines 104-106), the
derived profit metrics (lines 109-120), and the profitability sweep
(generate_heatmap_data, lines 123-132).

Python floats are modelled as exact rationals, Python dicts as association
lists kept in insertion order, and the Python exceptions the engine can
raise (KeyError on a missing dict key, ZeroDivisionError on division by a
zero float) are modelled with Except.
-/

set_option maxHeartbeats 1000000

/-- A Python dict from mineral name to number, kept in insertion order. -/
abbrev MineralMap := List (String × ℚ)

/-- The Python exceptions reachable inside the engine. -/
inductive PyErr where
  | keyError (k : String)
  | zeroDivisionError
deriving DecidableEq, Repr

/-- Exception propagation: run the continuation on a successful value,
propagate a raised exception unchanged. -/
def bindE {α β : Type} (e : Except PyErr α) (f : α → Except PyErr β) : Except PyErr β :=
  match e with
  | .error err => .error err
  | .ok a => f a


/-- Python dict indexing d[k]: raises KeyError k when the key is absent. -/
def keyed {β : Type} (k : String) (o : Option ℚ) (f : ℚ → Except PyErr β) : Except PyErr β :=
  match o with
  | none => .error (.keyError k)
  | some v => f v


/-- FEED_GRADES reference table, src/app.py line 28. -/
def FEED_GRADES : MineralMap :=
  [("Gold", 0.80), ("Magnetite", 6.0), ("Ilmenite", 1.5), ("Rutile", 0.30), ("Monazite", 0.15)]

/-- BASE_REC reference table, src/app.py line 29. -/
def BASE_REC : MineralMap :=
  [("Gold", 65.0), ("Magnetite", 70.0), ("Ilmenite", 60.0), ("Rutile", 55.0), ("Monazite", 50.0)]

/-- Python round(x, n) modelled on rationals (Python uses bankers rounding
on floats; the two agree everywhere except exact half-way ties, which no
statement below depends on). -/
def roundTo (n : ℕ) (x : ℚ) : ℚ := ((round (x * 10 ^ n) : ℤ) : ℚ) / 10 ^ n

/-- One result row appended by ultra_engine (src/app.py lines 90-95):
keys "Mineral", "Recovery %", "Conc Grade", "Revenue $/hr". -/
structure Row where
  mineral : String
  recovery_pct : ℚ
  conc_grade : ℚ
  revenue : ℚ
deriving DecidableEq, Repr

/-- The size-factor computation of ultra_engine, src/app.py lines 74-76. -/
def size_factor (size_d80 : ℚ) : ℚ :=
  if size_d80 < 100 then size_d80 / 100
  else if size_d80 > 400 then max 0.4 (1.0 - (size_d80 - 400) / 800)
  else 1.0

/-- One iteration of the per-mineral loop of ultra_engine
(src/app.py lines 84-95), for mineral m with requested recovery rec.
FEED_GRADES[m] and prices[m] are dict lookups that raise KeyError when the
key is absent, and both grade branches divide by conc_mass, raising
ZeroDivisionError when conc_mass is zero. -/
def engine_step (rate size_f conc_mass : ℚ) (prices : MineralMap) (m : String) (rec : ℚ) :
    Except PyErr (Row × ℚ) :=
  let eff_rec := rec * size_f
  keyed m (FEED_GRADES.lookup m) fun fg =>
    let feed_m := rate * (if m == "Gold" then fg else fg / 100)
    let conc_m := feed_m * (eff_rec / 100)
    if conc_mass = 0 then .error .zeroDivisionError
    else
      let grade := if m == "Gold" then conc_m / conc_mass else conc_m / conc_mass * 100
      keyed m (prices.lookup m) fun p =>
        let rev := conc_m * p
        .ok (⟨m, roundTo 2 eff_rec, roundTo 4 grade, roundTo 2 rev⟩, rev)

/-- The for-loop of ultra_engine (src/app.py lines 83-89): iterates over
targets.items() in insertion order, collecting the rows and accumulating
total_rev. -/
def engine_loop (rate size_f conc_mass : ℚ) (prices : MineralMap) :
    List (String × ℚ) → Except PyErr (List Row × ℚ)
  | [] => .ok ([], 0)
  | (m, rec) :: rest =>
    bindE (engine_step rate size_f conc_mass prices m rec) fun rr =>
      bindE (engine_loop rate size_f conc_mass prices rest) fun rt =>
        .ok (rr.1 :: rt.1, rr.2 + rt.2)

/-- ultra_engine, src/app.py lines 73-96.  Returns the result rows, the
concentrate mass flow and the total revenue, or the Python exception the
call would raise. -/
def ultra_engine (rate : ℚ) (targets prices : MineralMap) (split_pos size_d80 : ℚ) :
    Except PyErr (List Row × ℚ × ℚ) :=
  let size_f := size_factor size_d80
  let mass_pull := 0.10 + split_pos * 0.10
  let conc_mass := rate * mass_pull
  bindE (engine_loop rate size_f conc_mass prices targets) fun rt =>
    .ok (rt.1, conc_mass, rt.2)

/-- The seven OPEX sidebar inputs, src/app.py lines 59-65. -/
structure OpexParams where
  labour_cost : ℚ
  power_kw : ℚ
  power_rate : ℚ
  water_cost : ℚ
  maintenance_cost : ℚ
  mining_cost : ℚ
  lease_tax : ℚ
deriving DecidableEq, Repr

/-- total_opex, src/app.py lines 104-106, as a function of the feed rate
(power_cost = power_kw * power_rate and mining_cost_hr = f_rate * mining_cost
inlined, as computed on lines 104-105). -/
def total_opex (c : OpexParams) (f_rate : ℚ) : ℚ :=
  c.labour_cost + c.power_kw * c.power_rate + c.water_cost + c.maintenance_cost +
    f_rate * c.mining_cost + c.lease_tax

/-- profit_hr, src/app.py line 109. -/
def profit_hr (total_revenue opex : ℚ) : ℚ := total_revenue - opex

/-- actual_margin, src/app.py line 110. -/
def actual_margin (total_revenue opex : ℚ) : ℚ :=
  if total_revenue > 0 then profit_hr total_revenue opex / total_revenue * 100 else 0

/-- cost_per_ton, src/app.py line 119. -/
def cost_per_ton (opex f_rate : ℚ) : ℚ := if f_rate > 0 then opex / f_rate else 0

/-- profit_per_ton, src/app.py line 120. -/
def profit_per_ton (p f_rate : ℚ) : ℚ := if f_rate > 0 then p / f_rate else 0

/-- np.linspace(lo, hi, n): n evenly spaced samples over [lo, hi],
endpoints included (src/app.py lines 124-125 use n = 10). -/
def linspace (lo hi : ℚ) (n : ℕ) : List ℚ :=
  (List.range n).map (fun i : ℕ => lo + (hi - lo) * (i : ℚ) / ((n : ℚ) - 1))

/-- Effectful list map over Except, modelling a Python loop that can raise. -/
def mapE {α β : Type} (f : α → Except PyErr β) : List α → Except PyErr (List β)
  | [] => .ok []
  | a :: as => bindE (f a) fun b => bindE (mapE f as) fun bs => .ok (b :: bs)

/-- generate_heatmap_data, src/app.py lines 123-132.  For every cell the
OPEX expression of line 130 is written inline exactly as in the source.
The solids argument is accepted and unused, as in the source. -/
def generate_heatmap_data (c : OpexParams) (targets prices : MineralMap) (d80 solids : ℚ) :
    Except PyErr (List (List ℚ) × List ℚ × List ℚ) :=
  let rates := linspace 100 500 10
  let splits := linspace 0 2 10
  bindE (mapE (fun r =>
    mapE (fun s =>
      bindE (ultra_engine r targets prices s d80) fun res =>
        .ok (res.2.2 - (c.labour_cost + c.power_kw * c.power_rate + c.water_cost +
          c.maintenance_cost + r * c.mining_cost + c.lease_tax))) splits) rates) fun grid =>
    .ok (grid, rates, splits)

/-- Default recovery targets: the sidebar sliders of line 43 default to the
BASE_REC values, in BASE_REC insertion order. -/
def default_targets : MineralMap := BASE_REC

/-- Default prices: the sidebar number inputs of lines 49-55, in their
insertion order. -/
def default_prices : MineralMap :=
  [("Gold", 80.0), ("Magnetite", 100.0), ("Ilmenite", 250.0), ("Rutile", 800.0), ("Monazite", 1500.0)]

/-- Default OPEX inputs, lines 59-65. -/
def default_opex : OpexParams := ⟨120.0, 150.0, 0.12, 15.0, 40.0, 8.0, 25.0⟩

/-- The rows ultra_engine produces at feedRate 300, splitter 1.0, d80 150
with the default targets and prices. -/
def example_rows : List Row :=
  [⟨"Gold", 65, 2.6, 12480⟩, ⟨"Magnetite", 70, 21, 1260⟩, ⟨"Ilmenite", 60, 4.5, 675⟩,
   ⟨"Rutile", 55, 0.825, 396⟩, ⟨"Monazite", 50, 0.375, 337.5⟩]

/-- The rows ultra_engine produces at feedRate 400, splitter 1.0, d80 150
with the default targets and prices: same grades as at feedRate 300. -/
def example_rows_400 : List Row :=
  [⟨"Gold", 65, 2.6, 16640⟩, ⟨"Magnetite", 70, 21, 1680⟩, ⟨"Ilmenite", 60, 4.5, 900⟩,
   ⟨"Rutile", 55, 0.825, 528⟩, ⟨"Monazite", 50, 0.375, 450⟩]

/-- The per-mineral grade expression of src/app.py lines 85-87, with the
feed rate and the concentrate mass flow explicit. -/
def grade_expr (rate sf cm : ℚ) (t : String × ℚ) : ℚ :=
  let fg := (FEED_GRADES.lookup t.1).getD 0
  let conc_m := rate * (if t.1 == "Gold" then fg else fg / 100) * (t.2 * sf / 100)
  if t.1 == "Gold" then conc_m / cm else conc_m / cm * 100

/-- The grade closed form asserted by the claim about feed-rate
independence: (feed-grade term × effective recovery / 100) ÷ mass-pull,
multiplied by 100 for every mineral other than Gold. -/
def grade_free (sf mp : ℚ) (t : String × ℚ) : ℚ :=
  let fg := (FEED_GRADES.lookup t.1).getD 0
  let conc := (if t.1 == "Gold" then fg else fg / 100) * (t.2 * sf / 100)
  if t.1 == "Gold" then conc / mp else conc / mp * 100

/-- Recovery targets covering exactly the reference mineral set, supplied
in the reverse of the reference insertion order. -/
def reversed_targets : MineralMap :=
  [("Monazite", 50.0), ("Rutile", 55.0), ("Ilmenite", 60.0), ("Magnetite", 70.0), ("Gold", 65.0)]

/-- The heatmap call at the default application inputs. -/
def heat_default : Except PyErr (List (List ℚ) × List ℚ × List ℚ) :=
  generate_heatmap_data default_opex default_targets default_prices 150 30

/-- The grid the default heatmap call produces. -/
def grid_default : List (List ℚ) := (heat_default.toOption.getD ([], [], [])).1

/-! ### Evaluation helpers -/

theorem bindE_ok {α β : Type} (a : α) (f : α → Except PyErr β) : bindE (.ok a) f = f a := rfl

theorem bindE_err {α β : Type} (err : PyErr) (f : α → Except PyErr β) :
    bindE (.error err) f = .error err := rfl

theorem keyed_some {β : Type} (k : String) (v : ℚ) (f : ℚ → Except PyErr β) :
    keyed k (some v) f = f v := rfl

theorem keyed_none {β : Type} (k : String) (f : ℚ → Except PyErr β) :
    keyed k none f = .error (.keyError k) := rfl

theorem roundTo_eq_self (n : ℕ) (x : ℚ) (k : ℤ) (h : x * 10 ^ n = (k : ℚ)) :
    roundTo n x = x := by
  have h10 : ((10 : ℚ) ^ n) ≠ 0 := by positivity
  rw [roundTo, h, round_intCast]
  field_simp [h.symm]

theorem roundTo_eval (n : ℕ) (x y : ℚ) (k : ℤ) (h1 : x = y) (h2 : y * 10 ^ n = (k : ℚ)) :
    roundTo n x = y := by
  rw [h1, roundTo_eq_self n y k h2]

theorem row_eval (m : String) (a b c a1 b1 c1 : ℚ) (ka kb kc : ℤ)
    (ha : a = a1) (hka : a1 * 10 ^ 2 = (ka : ℚ))
    (hb : b = b1) (hkb : b1 * 10 ^ 4 = (kb : ℚ))
    (hc : c = c1) (hkc : c1 * 10 ^ 2 = (kc : ℚ)) :
    (⟨m, roundTo 2 a, roundTo 4 b, roundTo 2 c⟩ : Row) = ⟨m, a1, b1, c1⟩ := by
  rw [roundTo_eval 2 a a1 ka ha hka, roundTo_eval 4 b b1 kb hb hkb, roundTo_eval 2 c c1 kc hc hkc]

/-- engine_step at the precious-metal mineral Gold: the feed grade 0.80 is
used directly as a ratio and the grade is the plain concentrate mass
fraction. -/
theorem engine_step_gold (rate sf cm rec p : ℚ) (prices : MineralMap)
    (hcm : cm ≠ 0) (hp : prices.lookup "Gold" = some p) :
    engine_step rate sf cm prices "Gold" rec =
      .ok (⟨"Gold", roundTo 2 (rec * sf), roundTo 4 (rate * 0.80 * (rec * sf / 100) / cm),
            roundTo 2 (rate * 0.80 * (rec * sf / 100) * p)⟩,
           rate * 0.80 * (rec * sf / 100) * p) := by
  rw [engine_step, show FEED_GRADES.lookup "Gold" = some 0.80 from rfl, keyed_some,
    if_neg hcm, hp, keyed_some]
  simp

/-- engine_step at a mineral other than Gold: the feed grade is divided by
100 before use and the grade is reported as a percent (×100). -/
theorem engine_step_not_gold (rate sf cm rec fg p : ℚ) (m : String) (prices : MineralMap)
    (hm : (m == "Gold") = false) (hcm : cm ≠ 0)
    (hfg : FEED_GRADES.lookup m = some fg) (hp : prices.lookup m = some p) :
    engine_step rate sf cm prices m rec =
      .ok (⟨m, roundTo 2 (rec * sf), roundTo 4 (rate * (fg / 100) * (rec * sf / 100) / cm * 100),
            roundTo 2 (rate * (fg / 100) * (rec * sf / 100) * p)⟩,
           rate * (fg / 100) * (rec * sf / 100) * p) := by
  rw [engine_step, hfg, keyed_some, if_neg hcm, hp, keyed_some]
  simp only [hm, Bool.false_eq_true, if_false]

/-- engine_step raises ZeroDivisionError when the concentrate mass flow is
zero and the mineral is in the reference table. -/
theorem engine_step_div0 (rate sf cm rec fg : ℚ) (m : String) (prices : MineralMap)
    (hfg : FEED_GRADES.lookup m = some fg) (hcm : cm = 0) :
    engine_step rate sf cm prices m rec = .error .zeroDivisionError := by
  rw [engine_step, hfg, keyed_some, if_pos hcm]

/-- engine_step raises KeyError when the mineral is not in FEED_GRADES. -/
theorem engine_step_keyerr (rate sf cm rec : ℚ) (m : String) (prices : MineralMap)
    (hfg : FEED_GRADES.lookup m = none) :
    engine_step rate sf cm prices m rec = .error (.keyError m) := by
  rw [engine_step, hfg, keyed_none]

theorem engine_loop_nil (rate sf cm : ℚ) (prices : MineralMap) :
    engine_loop rate sf cm prices [] = .ok ([], 0) := rfl

theorem engine_loop_cons {rate sf cm rec rev total : ℚ} {m : String}
    {prices : MineralMap} {rest : List (String × ℚ)} {row : Row} {rows : List Row}
    (hstep : engine_step rate sf cm prices m rec = .ok (row, rev))
    (hrest : engine_loop rate sf cm prices rest = .ok (rows, total)) :
    engine_loop rate sf cm prices ((m, rec) :: rest) = .ok (row :: rows, rev + total) := by
  rw [engine_loop, hstep, bindE_ok, hrest, bindE_ok]

theorem engine_loop_cons_err {rate sf cm rec : ℚ} {m : String} {e : PyErr}
    {prices : MineralMap} (rest : List (String × ℚ))
    (hstep : engine_step rate sf cm prices m rec = .error e) :
    engine_loop rate sf cm prices ((m, rec) :: rest) = .error e := by
  rw [engine_loop, hstep, bindE_err]

theorem ultra_engine_of_loop {rate s d80 total : ℚ} {targets prices : MineralMap}
    {rows : List Row}
    (h : engine_loop rate (size_factor d80) (rate * (0.10 + s * 0.10)) prices targets =
      .ok (rows, total)) :
    ultra_engine rate targets prices s d80 = .ok (rows, rate * (0.10 + s * 0.10), total) := by
  rw [ultra_engine, h, bindE_ok]

theorem ultra_engine_of_loop_err {rate s d80 : ℚ} {targets prices : MineralMap} {e : PyErr}
    (h : engine_loop rate (size_factor d80) (rate * (0.10 + s * 0.10)) prices targets =
      .error e) :
    ultra_engine rate targets prices s d80 = .error e := by
  rw [ultra_engine, h, bindE_err]

theorem size_factor_150 : size_factor 150 = 1.0 := by
  rw [size_factor, if_neg (by norm_num), if_neg (by norm_num)]

/-- Concrete evaluation of the engine at the default single-point inputs of
the application (feedRate 300, splitter 1.0, d80 150). -/
theorem example_run :
    ultra_engine 300 default_targets default_prices 1 150 = .ok (example_rows, 60, 15148.5) := by
  have hcm : (300 : ℚ) * (0.10 + 1 * 0.10) ≠ 0 := by norm_num
  have h := ultra_engine_of_loop
    (engine_loop_cons
      (engine_step_gold 300 (size_factor 150) _ 65.0 80.0 default_prices hcm rfl)
      (engine_loop_cons
        (engine_step_not_gold 300 (size_factor 150) _ 70.0 6.0 100.0 "Magnetite"
          default_prices rfl hcm rfl rfl)
        (engine_loop_cons
          (engine_step_not_gold 300 (size_factor 150) _ 60.0 1.5 250.0 "Ilmenite"
            default_prices rfl hcm rfl rfl)
          (engine_loop_cons
            (engine_step_not_gold 300 (size_factor 150) _ 55.0 0.30 800.0 "Rutile"
              default_prices rfl hcm rfl rfl)
            (engine_loop_cons
              (engine_step_not_gold 300 (size_factor 150) _ 50.0 0.15 1500.0 "Monazite"
                default_prices rfl hcm rfl rfl)
              (engine_loop_nil _ _ _ _))))))
  rw [show (default_targets : MineralMap) =
    [("Gold", 65.0), ("Magnetite", 70.0), ("Ilmenite", 60.0), ("Rutile", 55.0), ("Monazite", 50.0)]
    from rfl, h, size_factor_150]
  simp only [example_rows, Except.ok.injEq, Prod.mk.injEq, List.cons.injEq, and_true,
    List.nil_eq]
  refine ⟨⟨?_, ?_, ?_, ?_, ?_⟩, by norm_num, by norm_num⟩
  · exact row_eval _ _ _ _ _ _ _ 6500 26000 1248000 (by norm_num) (by norm_num)
      (by norm_num) (by norm_num) (by norm_num) (by norm_num)
  · exact row_eval _ _ _ _ _ _ _ 7000 210000 126000 (by norm_num) (by norm_num)
      (by norm_num) (by norm_num) (by norm_num) (by norm_num)
  · exact row_eval _ _ _ _ _ _ _ 6000 45000 67500 (by norm_num) (by norm_num)
      (by norm_num) (by norm_num) (by norm_num) (by norm_num)
  · exact row_eval _ _ _ _ _ _ _ 5500 8250 39600 (by norm_num) (by norm_num)
      (by norm_num) (by norm_num) (by norm_num) (by norm_num)
  · exact row_eval _ _ _ _ _ _ _ 5000 3750 33750 (by norm_num) (by norm_num)
      (by norm_num) (by norm_num) (by norm_num) (by norm_num)

/-- Concrete evaluation of the engine at feedRate 400 with the other
defaults unchanged: the grades match those at feedRate 300. -/
theorem example_run_400 :
    ultra_engine 400 default_targets default_prices 1 150 = .ok (example_rows_400, 80, 20198) := by
  have hcm : (400 : ℚ) * (0.10 + 1 * 0.10) ≠ 0 := by norm_num
  have h := ultra_engine_of_loop
    (engine_loop_cons
      (engine_step_gold 400 (size_factor 150) _ 65.0 80.0 default_prices hcm rfl)
      (engine_loop_cons
        (engine_step_not_gold 400 (size_factor 150) _ 70.0 6.0 100.0 "Magnetite"
          default_prices rfl hcm rfl rfl)
        (engine_loop_cons
          (engine_step_not_gold 400 (size_factor 150) _ 60.0 1.5 250.0 "Ilmenite"
            default_prices rfl hcm rfl rfl)
          (engine_loop_cons
            (engine_step_not_gold 400 (size_factor 150) _ 55.0 0.30 800.0 "Rutile"
              default_prices rfl hcm rfl rfl)
            (engine_loop_cons
              (engine_step_not_gold 400 (size_factor 150) _ 50.0 0.15 1500.0 "Monazite"
                default_prices rfl hcm rfl rfl)
              (engine_loop_nil _ _ _ _))))))
  rw [show (default_targets : MineralMap) =
    [("Gold", 65.0), ("Magnetite", 70.0), ("Ilmenite", 60.0), ("Rutile", 55.0), ("Monazite", 50.0)]
    from rfl, h, size_factor_150]
  simp only [example_rows_400, Except.ok.injEq, Prod.mk.injEq, List.cons.injEq, and_true,
    List.nil_eq]
  refine ⟨⟨?_, ?_, ?_, ?_, ?_⟩, by norm_num, by norm_num⟩
  · exact row_eval _ _ _ _ _ _ _ 6500 26000 1664000 (by norm_num) (by norm_num)
      (by norm_num) (by norm_num) (by norm_num) (by norm_num)
  · exact row_eval _ _ _ _ _ _ _ 7000 210000 168000 (by norm_num) (by norm_num)
      (by norm_num) (by norm_num) (by norm_num) (by norm_num)
  · exact row_eval _ _ _ _ _ _ _ 6000 45000 90000 (by norm_num) (by norm_num)
      (by norm_num) (by norm_num) (by norm_num) (by norm_num)
  · exact row_eval _ _ _ _ _ _ _ 5500 8250 52800 (by norm_num) (by norm_num)
      (by norm_num) (by norm_num) (by norm_num) (by norm_num)
  · exact row_eval _ _ _ _ _ _ _ 5000 3750 45000 (by norm_num) (by norm_num)
      (by norm_num) (by norm_num) (by norm_num) (by norm_num)

/-! ### Inversion and structural lemmas about the engine -/

/-- What a successful engine_step must look like. -/
theorem engine_step_ok_elim {rate sf cm : ℚ} {prices : MineralMap} {m : String} {rec : ℚ}
    {rr : Row × ℚ}
    (h : engine_step rate sf cm prices m rec = .ok rr) :
    ∃ fg p, FEED_GRADES.lookup m = some fg ∧ prices.lookup m = some p ∧ cm ≠ 0 ∧
      rr.2 = rate * (if m == "Gold" then fg else fg / 100) * (rec * sf / 100) * p ∧
      rr.1 = ⟨m, roundTo 2 (rec * sf),
        roundTo 4 (if m == "Gold"
          then rate * (if m == "Gold" then fg else fg / 100) * (rec * sf / 100) / cm
          else rate * (if m == "Gold" then fg else fg / 100) * (rec * sf / 100) / cm * 100),
        roundTo 2 (rate * (if m == "Gold" then fg else fg / 100) * (rec * sf / 100) * p)⟩ := by
  rw [engine_step] at h
  cases hfg : FEED_GRADES.lookup m with
  | none => rw [hfg, keyed_none] at h; exact Except.noConfusion h
  | some fg =>
    rw [hfg, keyed_some] at h
    by_cases hcm : cm = 0
    · rw [if_pos hcm] at h; exact Except.noConfusion h
    · rw [if_neg hcm] at h
      cases hp : prices.lookup m with
      | none => rw [hp, keyed_none] at h; exact Except.noConfusion h
      | some p =>
        rw [hp, keyed_some] at h
        injection h with h
        exact ⟨fg, p, rfl, rfl, hcm, by rw [← h], by rw [← h]⟩

/-- Rounding to n decimals moves a rational by at most half a unit in the
last place. -/
theorem abs_roundTo_sub (n : ℕ) (x : ℚ) : |roundTo n x - x| ≤ 1 / (2 * 10 ^ n) := by
  have h10 : (0 : ℚ) < 10 ^ n := by positivity
  have key := abs_sub_round (x * 10 ^ n)
  have hrw : roundTo n x - x = -((x * 10 ^ n - ((round (x * 10 ^ n) : ℤ) : ℚ)) / 10 ^ n) := by
    rw [roundTo]; field_simp; ring
  rw [hrw, abs_neg, abs_div, abs_of_pos h10]
  calc |x * 10 ^ n - ((round (x * 10 ^ n) : ℤ) : ℚ)| / 10 ^ n ≤ (1 / 2) / 10 ^ n := by gcongr
    _ = 1 / (2 * 10 ^ n) := by ring


/-- Structure of a successful engine loop: row minerals follow the targets
iteration order, row grades are the grade expression rounded to 4 decimals,
and the sum of the rounded row revenues is within rows.length half-cents of
the unrounded accumulated total. -/
theorem engine_loop_ok_spec {rate sf cm : ℚ} {prices : MineralMap} {ts : List (String × ℚ)}
    {rows : List Row} {total : ℚ}
    (h : engine_loop rate sf cm prices ts = .ok (rows, total)) :
    rows.map Row.mineral = ts.map Prod.fst ∧
    rows.map Row.conc_grade = ts.map (fun t => roundTo 4 (grade_expr rate sf cm t)) ∧
    |(rows.map Row.revenue).sum - total| ≤ (rows.length : ℚ) * (1 / 200) := by
  induction ts generalizing rows total with
  | nil =>
    rw [engine_loop_nil] at h
    injection h with h
    injection h with h1 h2
    subst h1; subst h2
    simp
  | cons t rest ih =>
    obtain ⟨m, rec⟩ := t
    rw [engine_loop] at h
    cases hstep : engine_step rate sf cm prices m rec with
    | error e => rw [hstep, bindE_err] at h; exact Except.noConfusion h
    | ok rr =>
      rw [hstep, bindE_ok] at h
      cases hloop : engine_loop rate sf cm prices rest with
      | error e => rw [hloop, bindE_err] at h; exact Except.noConfusion h
      | ok rt =>
        rw [hloop, bindE_ok] at h
        injection h with h
        injection h with h1 h2
        subst h1; subst h2
        obtain ⟨ih1, ih2, ih3⟩ := ih hloop
        obtain ⟨fg, p, hfg, hp, hcm, hrev, hrow⟩ := engine_step_ok_elim hstep
        refine ⟨?_, ?_, ?_⟩
        · simp only [List.map_cons, ih1, hrow]
        · simp only [List.map_cons, ih2, hrow, List.cons.injEq, and_true]
          simp [grade_expr, hfg]
        · simp only [List.map_cons, List.sum_cons, List.length_cons]
          have hb : |rr.1.revenue - rr.2| ≤ 1 / 200 := by
            rw [hrow, hrev]
            have := abs_roundTo_sub 2 (rate * (if m == "Gold" then fg else fg / 100) *
              (rec * sf / 100) * p)
            calc |(roundTo 2 (rate * (if m == "Gold" then fg else fg / 100) * (rec * sf / 100) * p) :
                ℚ) - rate * (if m == "Gold" then fg else fg / 100) * (rec * sf / 100) * p| ≤
                1 / (2 * 10 ^ 2) := this
              _ = 1 / 200 := by norm_num
          have htri : |rr.1.revenue + (List.map Row.revenue rt.1).sum - (rr.2 + rt.2)| ≤
              |rr.1.revenue - rr.2| + |(List.map Row.revenue rt.1).sum - rt.2| := by
            have : rr.1.revenue + (List.map Row.revenue rt.1).sum - (rr.2 + rt.2) =
                (rr.1.revenue - rr.2) + ((List.map Row.revenue rt.1).sum - rt.2) := by ring
            rw [this]
            exact abs_add _ _
          have : ((rt.1.length : ℚ) + 1) * (1 / 200) =
              1 / 200 + (rt.1.length : ℚ) * (1 / 200) := by ring
          push_cast
          rw [this]
          exact le_trans htri (add_le_add hb ih3)


/-! ### Success (no-exception) lemmas -/

theorem engine_step_exists_ok (rate sf cm rec : ℚ) (prices : MineralMap) (m : String)
    (hcm : cm ≠ 0) (h1 : (FEED_GRADES.lookup m).isSome) (h2 : (List.lookup m prices).isSome) :
    ∃ rr, engine_step rate sf cm prices m rec = .ok rr := by
  obtain ⟨fg, hfg⟩ := Option.isSome_iff_exists.mp h1
  obtain ⟨p, hp⟩ := Option.isSome_iff_exists.mp h2
  rw [engine_step, hfg, keyed_some, if_neg hcm, hp, keyed_some]
  exact ⟨_, rfl⟩

theorem engine_loop_exists_ok (rate sf cm : ℚ) (prices : MineralMap) (ts : List (String × ℚ))
    (hcm : cm ≠ 0)
    (hks : ∀ t ∈ ts, (FEED_GRADES.lookup t.1).isSome ∧ (List.lookup t.1 prices).isSome) :
    ∃ rt, engine_loop rate sf cm prices ts = .ok rt := by
  induction ts with
  | nil => exact ⟨([], 0), rfl⟩
  | cons t rest ih =>
    obtain ⟨m, rec⟩ := t
    obtain ⟨h1, h2⟩ := hks (m, rec) (List.mem_cons_self _ _)
    obtain ⟨rr, hstep⟩ := engine_step_exists_ok rate sf cm rec prices m hcm h1 h2
    obtain ⟨rt, hloop⟩ := ih (fun u hu => hks u (List.mem_cons_of_mem _ hu))
    rw [engine_loop, hstep, bindE_ok, hloop, bindE_ok]
    exact ⟨_, rfl⟩

theorem ultra_engine_exists_ok (rate s d80 : ℚ) (targets prices : MineralMap)
    (hcm : rate * (0.10 + s * 0.10) ≠ 0)
    (hks : ∀ t ∈ targets, (FEED_GRADES.lookup t.1).isSome ∧ (List.lookup t.1 prices).isSome) :
    ∃ rows total, ultra_engine rate targets prices s d80 =
      .ok (rows, rate * (0.10 + s * 0.10), total) := by
  obtain ⟨⟨rows, total⟩, hloop⟩ := engine_loop_exists_ok rate (size_factor d80)
    (rate * (0.10 + s * 0.10)) prices targets hcm hks
  exact ⟨rows, total, ultra_engine_of_loop hloop⟩

/-! ### mapE and linspace lemmas -/

theorem mapE_exists_ok {α β : Type} (f : α → Except PyErr β) (xs : List α)
    (h : ∀ a ∈ xs, ∃ b, f a = .ok b) : ∃ ys, mapE f xs = .ok ys := by
  induction xs with
  | nil => exact ⟨[], rfl⟩
  | cons a as ih =>
    obtain ⟨b, hb⟩ := h a (List.mem_cons_self _ _)
    obtain ⟨ys, hys⟩ := ih (fun u hu => h u (List.mem_cons_of_mem _ hu))
    rw [mapE, hb, bindE_ok, hys, bindE_ok]
    exact ⟨_, rfl⟩

theorem mapE_ok_length {α β : Type} {f : α → Except PyErr β} {xs : List α} {ys : List β}
    (h : mapE f xs = .ok ys) : ys.length = xs.length := by
  induction xs generalizing ys with
  | nil =>
    rw [mapE] at h
    injection h with h
    subst h
    rfl
  | cons a as ih =>
    rw [mapE] at h
    cases hb : f a with
    | error e => rw [hb, bindE_err] at h; exact Except.noConfusion h
    | ok b =>
      rw [hb, bindE_ok] at h
      cases hys : mapE f as with
      | error e => rw [hys, bindE_err] at h; exact Except.noConfusion h
      | ok bs =>
        rw [hys, bindE_ok] at h
        injection h with h
        subst h
        simp [ih hys]

theorem mapE_ok_getD {α β : Type} {f : α → Except PyErr β} {xs : List α} {ys : List β}
    (dx : α) (dy : β) (h : mapE f xs = .ok ys) :
    ∀ i, i < xs.length → f (xs.getD i dx) = .ok (ys.getD i dy) := by
  induction xs generalizing ys with
  | nil => intro i hi; exact absurd hi (by simp)
  | cons a as ih =>
    rw [mapE] at h
    cases hb : f a with
    | error e => rw [hb, bindE_err] at h; exact Except.noConfusion h
    | ok b =>
      rw [hb, bindE_ok] at h
      cases hys : mapE f as with
      | error e => rw [hys, bindE_err] at h; exact Except.noConfusion h
      | ok bs =>
        rw [hys, bindE_ok] at h
        injection h with h
        subst h
        intro i hi
        cases i with
        | zero => simpa using hb
        | succ j =>
          have hj : j < as.length := by simpa using hi
          simpa using ih hys j hj

theorem linspace_length (lo hi : ℚ) (n : ℕ) : (linspace lo hi n).length = n := by
  rw [linspace, List.length_map, List.length_range]

theorem linspace_getD (lo hi : ℚ) (n i : ℕ) (h : i < n) :
    (linspace lo hi n).getD i 0 = lo + (hi - lo) * i / ((n : ℚ) - 1) := by
  rw [linspace, List.getD_eq_getElem?_getD, List.getElem?_map, List.getElem?_range h]
  rfl

theorem linspace_mem (lo hi : ℚ) (n : ℕ) (x : ℚ) (h : x ∈ linspace lo hi n) :
    ∃ i : ℕ, i < n ∧ x = lo + (hi - lo) * i / ((n : ℚ) - 1) := by
  rw [linspace] at h
  simp only [List.mem_map, List.mem_range] at h
  obtain ⟨i, hi, hx⟩ := h
  exact ⟨i, hi, hx.symm⟩

theorem rates_pos (r : ℚ) (h : r ∈ linspace 100 500 10) : 0 < r := by
  obtain ⟨i, _, hx⟩ := linspace_mem 100 500 10 r h
  subst hx
  have hi : (0 : ℚ) ≤ (i : ℚ) := Nat.cast_nonneg i
  have : (0 : ℚ) ≤ (500 - 100) * i / ((10 : ℚ) - 1) := by positivity
  linarith

theorem splits_nonneg (s : ℚ) (h : s ∈ linspace 0 2 10) : 0 ≤ s := by
  obtain ⟨i, _, hx⟩ := linspace_mem 0 2 10 s h
  subst hx
  have hi : (0 : ℚ) ≤ (i : ℚ) := Nat.cast_nonneg i
  positivity

theorem mass_pull_ne_zero (rate s : ℚ) (hr : 0 < rate) (hs : 0 ≤ s) :
    rate * (0.10 + s * 0.10) ≠ 0 := by
  have : (0 : ℚ) < 0.10 + s * 0.10 := by nlinarith
  positivity

/-! ### Heatmap machinery -/

theorem generate_heatmap_of_grid {c : OpexParams} {targets prices : MineralMap}
    {d80 solids : ℚ} {grid : List (List ℚ)}
    (h : mapE (fun r =>
      mapE (fun s =>
        bindE (ultra_engine r targets prices s d80) fun res =>
          .ok (res.2.2 - (c.labour_cost + c.power_kw * c.power_rate + c.water_cost +
            c.maintenance_cost + r * c.mining_cost + c.lease_tax))) (linspace 0 2 10))
      (linspace 100 500 10) = .ok grid) :
    generate_heatmap_data c targets prices d80 solids =
      .ok (grid, linspace 100 500 10, linspace 0 2 10) := by
  rw [generate_heatmap_data, h, bindE_ok]

theorem generate_heatmap_exists (c : OpexParams) (targets prices : MineralMap)
    (d80 solids : ℚ)
    (hks : ∀ t ∈ targets, (FEED_GRADES.lookup t.1).isSome ∧ (List.lookup t.1 prices).isSome) :
    ∃ grid, generate_heatmap_data c targets prices d80 solids =
      .ok (grid, linspace 100 500 10, linspace 0 2 10) := by
  have hcell : ∀ r ∈ linspace 100 500 10, ∃ row, (mapE (fun s =>
      bindE (ultra_engine r targets prices s d80) fun res =>
        .ok (res.2.2 - (c.labour_cost + c.power_kw * c.power_rate + c.water_cost +
          c.maintenance_cost + r * c.mining_cost + c.lease_tax))) (linspace 0 2 10)) =
      .ok row := by
    intro r hr
    apply mapE_exists_ok
    intro s hs
    obtain ⟨rows, total, heng⟩ := ultra_engine_exists_ok r s d80 targets prices
      (mass_pull_ne_zero r s (rates_pos r hr) (splits_nonneg s hs)) hks
    rw [heng, bindE_ok]
    exact ⟨_, rfl⟩
  obtain ⟨grid, hgrid⟩ := mapE_exists_ok _ _ hcell
  exact ⟨grid, generate_heatmap_of_grid hgrid⟩

theorem default_keys_ok :
    ∀ t ∈ default_targets,
      (FEED_GRADES.lookup t.1).isSome ∧ (List.lookup t.1 default_prices).isSome := by
  intro t ht
  rw [show (default_targets : MineralMap) =
    [("Gold", 65.0), ("Magnetite", 70.0), ("Ilmenite", 60.0), ("Rutile", 55.0), ("Monazite", 50.0)]
    from rfl] at ht
  simp only [List.mem_cons, List.not_mem_nil, or_false] at ht
  rcases ht with rfl | rfl | rfl | rfl | rfl <;> exact ⟨rfl, rfl⟩



theorem heatmap_default_ok :
    heat_default = .ok (grid_default, linspace 100 500 10, linspace 0 2 10) := by
  obtain ⟨grid, hg⟩ := generate_heatmap_exists default_opex default_targets default_prices
    150 30 default_keys_ok
  have hh : heat_default = .ok (grid, linspace 100 500 10, linspace 0 2 10) := hg
  have hgd : grid_default = grid := by
    rw [grid_default, hh]
    rfl
  rw [hgd]
  exact hh

/-! ### Remaining helper definitions and lemmas -/

/-- Inversion for a successful ultra_engine call. -/
theorem ultra_engine_ok_elim {rate s d80 total cmv : ℚ} {targets prices : MineralMap}
    {rows : List Row}
    (h : ultra_engine rate targets prices s d80 = .ok (rows, cmv, total)) :
    cmv = rate * (0.10 + s * 0.10) ∧
    engine_loop rate (size_factor d80) (rate * (0.10 + s * 0.10)) prices targets =
      .ok (rows, total) := by
  rw [ultra_engine] at h
  cases hloop : engine_loop rate (size_factor d80) (rate * (0.10 + s * 0.10)) prices targets with
  | error e => rw [hloop, bindE_err] at h; exact Except.noConfusion h
  | ok rt =>
    obtain ⟨rows0, total0⟩ := rt
    rw [hloop, bindE_ok] at h
    injection h with h
    injection h with h1 h2
    injection h2 with h2 h3
    subst h1; subst h2; subst h3
    exact ⟨rfl, by simpa using hloop⟩


/-- The feed rate cancels out of the per-mineral grade expression. -/
theorem grade_expr_cancel (rate sf mp : ℚ) (t : String × ℚ)
    (hr : rate ≠ 0) (hm : mp ≠ 0) :
    grade_expr rate sf (rate * mp) t = grade_free sf mp t := by
  rw [grade_expr, grade_free]
  by_cases hg : (t.1 == "Gold") = true
  · simp only [hg, if_true]
    field_simp
    ring
  · simp only [eq_false_of_ne_true hg, if_false]
    field_simp
    ring


theorem reversed_keys_ok :
    ∀ t ∈ reversed_targets,
      (FEED_GRADES.lookup t.1).isSome ∧ (List.lookup t.1 default_prices).isSome := by
  intro t ht
  simp only [reversed_targets, List.mem_cons, List.not_mem_nil, or_false] at ht
  rcases ht with rfl | rfl | rfl | rfl | rfl <;> exact ⟨rfl, rfl⟩

/-! ### Claim theorems -/

/-- C1 (code bug): the claim states that at feedRate 0 — or any input
making the concentrate mass flow 0, such as splitterPosition −1 — the
engine returns concentrate mass flow 0 with all-zero revenues and a grade
guarded to 0, raising no exception.  The code has no such guard: the grade
computation (src/app.py line 87) divides by conc_mass, so with conc_mass 0
the call raises ZeroDivisionError at the first mineral and returns
nothing. -/
theorem feed_rate_zero_raises :
    ultra_engine 0 default_targets default_prices 1 150 = .error .zeroDivisionError ∧
    ultra_engine 300 default_targets default_prices (-1) 150 = .error .zeroDivisionError := by
  constructor
  · rw [show (default_targets : MineralMap) =
      [("Gold", 65.0), ("Magnetite", 70.0), ("Ilmenite", 60.0), ("Rutile", 55.0), ("Monazite", 50.0)]
      from rfl]
    exact ultra_engine_of_loop_err (engine_loop_cons_err _
      (engine_step_div0 0 (size_factor 150) _ 65.0 0.80 "Gold" default_prices rfl (by norm_num)))
  · rw [show (default_targets : MineralMap) =
      [("Gold", 65.0), ("Magnetite", 70.0), ("Ilmenite", 60.0), ("Rutile", 55.0), ("Monazite", 50.0)]
      from rfl]
    exact ultra_engine_of_loop_err (engine_loop_cons_err _
      (engine_step_div0 300 (size_factor 150) _ 65.0 0.80 "Gold" default_prices rfl (by norm_num)))

/-- C2: the sweep produces a 10×10 grid over 10 evenly spaced feed-rate
samples on [100,500] and 10 evenly spaced splitter samples on [0,2], and
every cell (i,j) equals the engine total revenue at
(rates[i], splits[j]) minus total_opex evaluated at rates[i] — the same
formula that produces the single-point OPEX scalar. -/
theorem heatmap_grid_spec {c : OpexParams} {targets prices : MineralMap}
    {d80 solids : ℚ} {grid : List (List ℚ)} {rates splits : List ℚ}
    (h : generate_heatmap_data c targets prices d80 solids = .ok (grid, rates, splits)) :
    rates = linspace 100 500 10 ∧ splits = linspace 0 2 10 ∧
    grid.length = 10 ∧
    (∀ i, i < 10 → (grid.getD i []).length = 10) ∧
    (∀ i, i < 10 → rates.getD i 0 = 100 + 400 * i / 9) ∧
    (∀ j, j < 10 → splits.getD j 0 = 2 * j / 9) ∧
    (∀ i j, i < 10 → j < 10 → ∃ rows cmv trev,
      ultra_engine (rates.getD i 0) targets prices (splits.getD j 0) d80 =
        .ok (rows, cmv, trev) ∧
      (grid.getD i []).getD j 0 = trev - total_opex c (rates.getD i 0)) := by
  rw [generate_heatmap_data] at h
  cases hm : mapE (fun r =>
      mapE (fun s =>
        bindE (ultra_engine r targets prices s d80) fun res =>
          .ok (res.2.2 - (c.labour_cost + c.power_kw * c.power_rate + c.water_cost +
            c.maintenance_cost + r * c.mining_cost + c.lease_tax))) (linspace 0 2 10))
      (linspace 100 500 10) with
  | error e => rw [hm, bindE_err] at h; exact Except.noConfusion h
  | ok g =>
    rw [hm, bindE_ok] at h
    injection h with h
    injection h with h1 h2
    injection h2 with h2 h3
    subst h1; subst h2; subst h3
    have hlen10 : (linspace 100 500 10).length = 10 := linspace_length 100 500 10
    have hslen10 : (linspace 0 2 10).length = 10 := linspace_length 0 2 10
    refine ⟨rfl, rfl, ?_, ?_, ?_, ?_, ?_⟩
    · rw [mapE_ok_length hm, hlen10]
    · intro i hi
      have hrow := mapE_ok_getD 0 [] hm i (by rw [hlen10]; exact hi)
      rw [mapE_ok_length hrow, hslen10]
    · intro i hi
      rw [linspace_getD 100 500 10 i hi]
      norm_num
    · intro j hj
      rw [linspace_getD 0 2 10 j hj]
      norm_num
    · intro i j hi hj
      have hrow := mapE_ok_getD 0 [] hm i (by rw [hlen10]; exact hi)
      have hcell := mapE_ok_getD 0 0 hrow j (by rw [hslen10]; exact hj)
      cases heng : ultra_engine ((linspace 100 500 10).getD i 0) targets prices
          ((linspace 0 2 10).getD j 0) d80 with
      | error e => rw [heng, bindE_err] at hcell; exact Except.noConfusion hcell
      | ok res =>
        obtain ⟨rows, cmv, trev⟩ := res
        rw [heng, bindE_ok] at hcell
        injection hcell with hcell
        exact ⟨rows, cmv, trev, rfl, by rw [← hcell, total_opex]⟩

/-- Witness for C2: the heatmap call at the default application inputs
succeeds, the grid has 10 rows, and all cells satisfy the round-trip
property. -/
theorem heatmap_grid_spec_witness :
    heat_default = .ok (grid_default, linspace 100 500 10, linspace 0 2 10) ∧
    grid_default.length = 10 ∧
    (∀ i j, i < 10 → j < 10 → ∃ rows cmv trev,
      ultra_engine ((linspace 100 500 10).getD i 0) default_targets default_prices
          ((linspace 0 2 10).getD j 0) 150 = .ok (rows, cmv, trev) ∧
      (grid_default.getD i []).getD j 0 =
        trev - total_opex default_opex ((linspace 100 500 10).getD i 0)) := by
  have h : generate_heatmap_data default_opex default_targets default_prices 150 30 =
      .ok (grid_default, linspace 100 500 10, linspace 0 2 10) := heatmap_default_ok
  have spec := heatmap_grid_spec h
  exact ⟨heatmap_default_ok, spec.2.2.1, spec.2.2.2.2.2.2⟩

/-- C3: the size factor equals feedD80/100 below 100 microns, equals
max(0.4, 1 − (feedD80−400)/800) above 400 microns (so feedD80 = 1200 gives
exactly the floor 0.4), and equals exactly 1 throughout [100,400]. -/
theorem size_factor_piecewise (d : ℚ) :
    (d < 100 → size_factor d = d / 100) ∧
    (400 < d → size_factor d = max 0.4 (1 - (d - 400) / 800)) ∧
    (100 ≤ d → d ≤ 400 → size_factor d = 1) ∧
    size_factor 1200 = 0.4 := by
  refine ⟨fun h => ?_, fun h => ?_, fun h1 h2 => ?_, ?_⟩
  · rw [size_factor, if_pos h]
  · rw [size_factor, if_neg (not_lt.mpr (by linarith)), if_pos h]
    norm_num
  · rw [size_factor, if_neg (not_lt.mpr h1), if_neg (not_lt.mpr h2)]
    norm_num
  · rw [size_factor, if_neg (by norm_num), if_pos (by norm_num)]
    rw [show (1.0 : ℚ) - (1200 - 400) / 800 = 0 by norm_num]
    exact max_eq_left (by norm_num)

/-- Witness for C3: the fines branch at feedD80 = 50. -/
theorem size_factor_piecewise_witness :
    (50 : ℚ) < 100 ∧ size_factor 50 = 50 / 100 :=
  ⟨by norm_num, (size_factor_piecewise 50).1 (by norm_num)⟩

/-- C4: any returned concentrate mass flow equals
feedRate × (0.10 + 0.10 × splitterPosition), and on the splitter domain
[0,2] the mass-pull fraction lies in [0.10, 0.30]. -/
theorem conc_mass_flow_spec {rate s d80 cmv total : ℚ} {targets prices : MineralMap}
    {rows : List Row}
    (h : ultra_engine rate targets prices s d80 = .ok (rows, cmv, total)) :
    cmv = rate * (0.10 + 0.10 * s) ∧
    (0 ≤ s → s ≤ 2 → 0.10 ≤ 0.10 + 0.10 * s ∧ 0.10 + 0.10 * s ≤ 0.30) := by
  refine ⟨?_, fun h1 h2 => ⟨by linarith, by linarith⟩⟩
  rw [(ultra_engine_ok_elim h).1]
  ring

/-- Witness for C4: splitterPosition 1.0 and feedRate 300 give concentrate
mass flow 60. -/
theorem conc_mass_flow_spec_witness :
    ultra_engine 300 default_targets default_prices 1 150 = .ok (example_rows, 60, 15148.5) ∧
    (60 : ℚ) = 300 * (0.10 + 0.10 * 1) :=
  ⟨example_run, (conc_mass_flow_spec example_run).1⟩

/-- C5: Gold is treated asymmetrically — its feed grade 0.80 is used
directly as a ratio and its grade is the plain concentrate mass fraction,
while every other mineral has its feed grade divided by 100 and its grade
reported ×100; at the example scenario the Gold row is
(65, 2.6, 12480), matching feed mass 240, concentrate mass 156, grade
156/60 = 2.6 and revenue 156×80 = 12480. -/
theorem gold_asymmetry_spec :
    (∀ rate sf cm rec p : ℚ, ∀ prices : MineralMap, cm ≠ 0 →
      List.lookup "Gold" prices = some p →
      engine_step rate sf cm prices "Gold" rec =
        .ok (⟨"Gold", roundTo 2 (rec * sf), roundTo 4 (rate * 0.80 * (rec * sf / 100) / cm),
              roundTo 2 (rate * 0.80 * (rec * sf / 100) * p)⟩,
             rate * 0.80 * (rec * sf / 100) * p)) ∧
    (∀ rate sf cm rec fg p : ℚ, ∀ m : String, ∀ prices : MineralMap,
      (m == "Gold") = false → cm ≠ 0 →
      FEED_GRADES.lookup m = some fg → List.lookup m prices = some p →
      engine_step rate sf cm prices m rec =
        .ok (⟨m, roundTo 2 (rec * sf),
              roundTo 4 (rate * (fg / 100) * (rec * sf / 100) / cm * 100),
              roundTo 2 (rate * (fg / 100) * (rec * sf / 100) * p)⟩,
             rate * (fg / 100) * (rec * sf / 100) * p)) ∧
    ultra_engine 300 default_targets default_prices 1 150 = .ok (example_rows, 60, 15148.5) ∧
    (300 * (0.80 : ℚ) = 240 ∧ (240 : ℚ) * (65 / 100) = 156 ∧ (156 : ℚ) / 60 = 2.6 ∧
      (156 : ℚ) * 80 = 12480 ∧ example_rows.head? = some ⟨"Gold", 65, 2.6, 12480⟩) :=
  ⟨fun rate sf cm rec p prices hcm hp => engine_step_gold rate sf cm rec p prices hcm hp,
    fun rate sf cm rec fg p m prices hm hcm hfg hp =>
      engine_step_not_gold rate sf cm rec fg p m prices hm hcm hfg hp,
    example_run, by norm_num, by norm_num, by norm_num, by norm_num, rfl⟩

/-- Witness for C5: the Gold branch evaluated at the example scenario. -/
theorem gold_asymmetry_spec_witness :
    (60 : ℚ) ≠ 0 ∧ List.lookup "Gold" default_prices = some 80.0 ∧
    engine_step 300 1 60 default_prices "Gold" 65 =
      .ok (⟨"Gold", roundTo 2 (65 * 1), roundTo 4 (300 * 0.80 * (65 * 1 / 100) / 60),
            roundTo 2 (300 * 0.80 * (65 * 1 / 100) * 80.0)⟩,
           300 * 0.80 * (65 * 1 / 100) * 80.0) :=
  ⟨by norm_num, rfl, gold_asymmetry_spec.1 300 1 60 65 80.0 default_prices (by norm_num) rfl⟩

/-- C6: the sum of the (2-decimal-rounded) per-mineral revenue rows equals
the unrounded total revenue of the same call to within rounding tolerance
(half a cent per row). -/
theorem revenue_sum_spec {rate s d80 cmv total : ℚ} {targets prices : MineralMap}
    {rows : List Row}
    (h : ultra_engine rate targets prices s d80 = .ok (rows, cmv, total)) :
    |(rows.map Row.revenue).sum - total| ≤ (rows.length : ℚ) * (1 / 200) :=
  (engine_loop_ok_spec (ultra_engine_ok_elim h).2).2.2

/-- Witness for C6 at the example scenario. -/
theorem revenue_sum_spec_witness :
    ultra_engine 300 default_targets default_prices 1 150 = .ok (example_rows, 60, 15148.5) ∧
    |(example_rows.map Row.revenue).sum - 15148.5| ≤ (example_rows.length : ℚ) * (1 / 200) :=
  ⟨example_run, revenue_sum_spec example_run⟩

/-- C7: profit/hr is revenue minus OPEX; margin is profit/revenue × 100,
defined as 0 whenever revenue ≤ 0; cost/ton and profit/ton divide by the
feed rate and are guarded to 0 at feed rate 0; the 1000/750 example gives
profit 250 and margin 25. -/
theorem derived_metrics_spec (rev opex rate : ℚ) :
    profit_hr rev opex = rev - opex ∧
    (rev ≤ 0 → actual_margin rev opex = 0) ∧
    (0 < rev → actual_margin rev opex = (rev - opex) / rev * 100) ∧
    profit_hr 1000 750 = 250 ∧
    actual_margin 1000 750 = 25 ∧
    (0 < rate → cost_per_ton opex rate = opex / rate) ∧
    (0 < rate → profit_per_ton (profit_hr rev opex) rate = (rev - opex) / rate) ∧
    cost_per_ton opex 0 = 0 ∧
    profit_per_ton (profit_hr rev opex) 0 = 0 := by
  refine ⟨rfl, fun h => ?_, fun h => ?_, by norm_num [profit_hr], ?_, fun h => ?_,
    fun h => ?_, ?_, ?_⟩
  · rw [actual_margin, if_neg (not_lt.mpr h)]
  · rw [actual_margin, if_pos h, profit_hr]
  · rw [actual_margin, if_pos (by norm_num), profit_hr]
    norm_num
  · rw [cost_per_ton, if_pos h]
  · rw [profit_per_ton, if_pos h, profit_hr]
  · rw [cost_per_ton, if_neg (lt_irrefl 0)]
  · rw [profit_per_ton, if_neg (lt_irrefl 0)]

/-- Witness for C7: margin guarded to 0 at zero revenue. -/
theorem derived_metrics_spec_witness :
    (0 : ℚ) ≤ 0 ∧ actual_margin 0 750 = 0 :=
  ⟨le_refl 0, (derived_metrics_spec 0 750 5).2.1 (le_refl 0)⟩

/-- C8 (code bug): the claim states that a targets/prices key-set not
covering exactly the reference mineral set surfaces an explicit contract
error rather than crashing on a missing-key lookup or silently computing.
The code does the opposite: an unknown mineral name raises a bare KeyError
from the FEED_GRADES lookup, and a missing reference mineral is silently
skipped, returning a smaller result set. -/
theorem key_mismatch_behavior :
    ultra_engine 300 [("Quartz", 50.0)] default_prices 1 150 = .error (.keyError "Quartz") ∧
    ultra_engine 300 [("Gold", 65.0)] default_prices 1 150 =
      .ok ([⟨"Gold", 65, 2.6, 12480⟩], 60, 12480) := by
  constructor
  · exact ultra_engine_of_loop_err (engine_loop_cons_err _
      (engine_step_keyerr 300 (size_factor 150) _ 50.0 "Quartz" default_prices rfl))
  · have hcm : (300 : ℚ) * (0.10 + 1 * 0.10) ≠ 0 := by norm_num
    have h := ultra_engine_of_loop (engine_loop_cons
      (engine_step_gold 300 (size_factor 150) _ 65.0 80.0 default_prices hcm rfl)
      (engine_loop_nil _ _ _ _))
    rw [h, size_factor_150]
    simp only [Except.ok.injEq, Prod.mk.injEq, List.cons.injEq, and_true, List.nil_eq]
    refine ⟨?_, by norm_num, by norm_num⟩
    exact row_eval _ _ _ _ _ _ _ 6500 26000 1248000 (by norm_num) (by norm_num)
      (by norm_num) (by norm_num) (by norm_num) (by norm_num)

/-- C9 counterexample: with the reference minerals supplied in reverse
order the rows come out in that supplied order, not in the fixed table
order — the loop iterates over targets.items(), not over the reference
table. -/
theorem row_order_counterexample :
    (ultra_engine 300 reversed_targets default_prices 1 150).toOption.map
        (fun r => r.1.map Row.mineral) =
      some ["Monazite", "Rutile", "Ilmenite", "Magnetite", "Gold"] ∧
    ["Monazite", "Rutile", "Ilmenite", "Magnetite", "Gold"] ≠
      ["Gold", "Magnetite", "Ilmenite", "Rutile", "Monazite"] := by
  constructor
  · obtain ⟨rows, total, h⟩ := ultra_engine_exists_ok 300 1 150 reversed_targets
      default_prices (by norm_num) reversed_keys_ok
    have hmin := (engine_loop_ok_spec (ultra_engine_ok_elim h).2).1
    rw [h]
    simp [Except.toOption, hmin, reversed_targets]
  · simp

/-- C9 amended: the result rows appear in the iteration order of the
caller-supplied recoveryTargets mapping; this coincides with the fixed
mineral table order exactly when the mapping is supplied in that insertion
order, as the application does. -/
theorem row_order_follows_targets {rate s d80 cmv total : ℚ} {targets prices : MineralMap}
    {rows : List Row}
    (h : ultra_engine rate targets prices s d80 = .ok (rows, cmv, total)) :
    rows.map Row.mineral = targets.map Prod.fst :=
  (engine_loop_ok_spec (ultra_engine_ok_elim h).2).1

/-- Witness for the amended C9 at the example scenario. -/
theorem row_order_follows_targets_witness :
    ultra_engine 300 default_targets default_prices 1 150 = .ok (example_rows, 60, 15148.5) ∧
    example_rows.map Row.mineral = default_targets.map Prod.fst :=
  ⟨example_run, row_order_follows_targets example_run⟩

/-- C10: for two positive feed rates with all other inputs equal (and the
splitter away from −1), the returned per-row grades are identical: each
grade is the rounded rate-free closed form (feed-grade term × effective
recovery / 100) ÷ mass-pull, ×100 for the non-precious minerals. -/
theorem grade_rate_independent {a b s d80 cmA trA cmB trB : ℚ}
    {targets prices : MineralMap} {rowsA rowsB : List Row}
    (ha : 0 < a) (hb : 0 < b) (hs : s ≠ -1)
    (hA : ultra_engine a targets prices s d80 = .ok (rowsA, cmA, trA))
    (hB : ultra_engine b targets prices s d80 = .ok (rowsB, cmB, trB)) :
    rowsA.map Row.conc_grade =
      targets.map (fun t => roundTo 4 (grade_free (size_factor d80) (0.10 + s * 0.10) t)) ∧
    rowsA.map Row.conc_grade = rowsB.map Row.conc_grade := by
  have hmp : (0.10 + s * 0.10 : ℚ) ≠ 0 := by
    intro h0
    apply hs
    linarith
  have hAg := (engine_loop_ok_spec (ultra_engine_ok_elim hA).2).2.1
  have hBg := (engine_loop_ok_spec (ultra_engine_ok_elim hB).2).2.1
  have hfun : ∀ rate : ℚ, rate ≠ 0 →
      (fun t => roundTo 4 (grade_expr rate (size_factor d80) (rate * (0.10 + s * 0.10)) t)) =
      (fun t => roundTo 4 (grade_free (size_factor d80) (0.10 + s * 0.10) t)) := by
    intro rate hr
    funext t
    rw [grade_expr_cancel rate (size_factor d80) (0.10 + s * 0.10) t hr hmp]
  rw [hAg, hBg, hfun a (ne_of_gt ha), hfun b (ne_of_gt hb)]
  exact ⟨rfl, rfl⟩

/-- Witness for C10: feed rates 300 and 400 give identical grade columns. -/
theorem grade_rate_independent_witness :
    (0 : ℚ) < 300 ∧ (0 : ℚ) < 400 ∧ (1 : ℚ) ≠ -1 ∧
    ultra_engine 300 default_targets default_prices 1 150 = .ok (example_rows, 60, 15148.5) ∧
    ultra_engine 400 default_targets default_prices 1 150 = .ok (example_rows_400, 80, 20198) ∧
    example_rows.map Row.conc_grade = example_rows_400.map Row.conc_grade :=
  ⟨by norm_num, by norm_num, by norm_num, example_run, example_run_400,
    (grade_rate_independent (by norm_num) (by norm_num) (by norm_num)
      example_run example_run_400).2⟩
